import Mathlib

/-!
Formal model of `src/models/llama_pipeline_model.py`.

The Python file assembles a LLaMA language model as a DeepSpeed pipeline:
four stage wrappers (`EmbeddingPipe`, `ParallelTransformerLayerPipe`,
`LayerNormPipe`, `LMLayerPipe`), an eager re-tagging path (`_wrap_*`,
`_to_layers`), a loss function (`loss_fn`), and `get_model`, which validates
the parallel topology, offsets the seed for interior pipeline stages, and
builds the ordered `LayerSpec` list.

The development below is a shallow embedding: Python values that cross stage
boundaries become the inductive `Val`; tensors are a shape together with
flat data; fallible Python code returns `Except PyErr`; the external
collaborators (the HF decoder-layer body, the DeepSpeed checkpoint
primitive, the rank-to-coordinate lookup of the topology object) enter as
explicit parameters or as definitions modelled from the specification of
their boundary behavior.
-/

/-- Python exception classes that the modelled code can raise. -/
inductive PyErr
  | attributeError
  | valueError
  | indexError
  | typeError
  | assertionError
  | zeroDivisionError
  deriving DecidableEq, Repr

/-- The fields of the HF `LlamaConfig` that `llama_pipeline_model.py` reads:
vocabulary size, hidden size, number of transformer blocks, RMS-norm epsilon.
The epsilon is a rational stand-in for the Python float. -/
structure LlamaConfig where
  vocab_size : Nat
  hidden_size : Nat
  num_hidden_layers : Nat
  rms_norm_eps : ℚ
  deriving DecidableEq, Repr

/-- One DeepSpeed `LayerSpec`: a lazy (constructor, constructor-arguments)
pair, one per pipeline stage, mirroring the four `LayerSpec(...)` calls at
lines 159-163 of the source. -/
inductive StageSpec
  | embedding (numEmbeddings : Nat) (embeddingDim : Nat)
  | transformer (config : LlamaConfig) (activationCheckpointing : Bool)
  | norm (hiddenSize : Nat) (eps : ℚ)
  | lmHead (inFeatures : Nat) (outFeatures : Nat) (bias : Bool)
  deriving DecidableEq, Repr

/-- The ordered stage-specification list built in `GPT2ModelPipe.__init__`
(source lines 157-164): one embedding spec over `vocab_size + 1` ids, then
`num_hidden_layers` transformer-block specs (all sharing the config and the
activation-checkpointing flag), then the RMS-norm spec, then the LM head
spec with `vocab_size + 1` output features and `bias=False`. -/
def buildLayerSpecs (cfg : LlamaConfig) (activationCheckpointing : Bool) : List StageSpec :=
  [StageSpec.embedding (cfg.vocab_size + 1) cfg.hidden_size]
    ++ List.replicate cfg.num_hidden_layers
        (StageSpec.transformer cfg activationCheckpointing)
    ++ [StageSpec.norm cfg.hidden_size cfg.rms_norm_eps,
        StageSpec.lmHead cfg.hidden_size (cfg.vocab_size + 1) false]

/-- The caller-supplied arguments object read by `get_model`
(source lines 168-178): the two parallel degrees, the world size, and the
base random seed.  Sizes are naturals (process counts); the seed is an
arbitrary integer. -/
structure TrainArgs where
  pipe_parallel_size : Nat
  model_parallel_size : Nat
  world_size : Nat
  seed : Int
  deriving DecidableEq, Repr

/-- The `PipeModelDataParallelTopology` constructed at source line 174,
recording the three parallel dimensions.  `get_dim('pipe')` is the
`num_pp` field. -/
structure PipeTopology where
  num_pp : Nat
  num_mp : Nat
  num_dp : Nat
  deriving DecidableEq, Repr

/-- The optional activation-checkpointing options mapping.  Only its
presence (`is not None`) and its Python truthiness (non-empty dict) are
observed by the modelled code, so entries are kept abstract as key/flag
pairs. -/
def ACDict : Type := List (String × Bool)

/-- Python truthiness of the optional options mapping, as tested by
`if activation_checkpointing_config:` at source line 147: `None` is falsy
and an empty dict is falsy; a non-empty dict is truthy. -/
def pyTruthy : Option ACDict → Bool
  | none => false
  | some d => !d.isEmpty

/-- The observable result of constructing `GPT2ModelPipe` inside
`get_model` (source lines 145-166 and 180-183): the stage-specification
list handed to the pipeline engine, the topology, the (possibly offset)
base seed, and whether `deepspeed.checkpointing.configure` was invoked
during `__init__` (line 148). -/
structure GPT2ModelPipe where
  specs : List StageSpec
  topology : PipeTopology
  baseSeed : Int
  configureCalled : Bool
  deriving DecidableEq, Repr

/-- Shallow embedding of `get_model` (source lines 144-183).  The worker's
pipeline coordinate, looked up externally via
`topo.get_coord(rank=torch.distributed.get_rank()).pipe` at line 176, is
passed in as `rankPipeCoord`.  Python raises `ZeroDivisionError` when the
modulus at line 170 has divisor zero, and `AssertionError` when the
divisibility assert fails; either error aborts `get_model` before the
topology-dependent seed offset and before any stage specification is
built.  Otherwise the seed is offset by `stage_id * mp` exactly when
`0 < stage_id < pipe_dim - 1` (lines 177-178), and the pipeline module is
constructed: `configure` is called iff the options mapping is truthy
(line 147), while every transformer spec receives the flag
`activation_checkpointing_config is not None` (line 160). -/
def getModel (cfg : LlamaConfig) (args : TrainArgs) (acConfig : Option ACDict)
    (rankPipeCoord : Nat) : Except PyErr GPT2ModelPipe :=
  let pp := args.pipe_parallel_size
  let mp := args.model_parallel_size
  if pp * mp = 0 then Except.error PyErr.zeroDivisionError
  else if args.world_size % (pp * mp) ≠ 0 then Except.error PyErr.assertionError
  else
    let dp := args.world_size / (pp * mp)
    let topo : PipeTopology := ⟨pp, mp, dp⟩
    let stageId := rankPipeCoord
    let seed : Int :=
      if 0 < stageId ∧ stageId < topo.num_pp - 1
        then args.seed + (stageId * mp : Nat)
        else args.seed
    Except.ok
      { specs := buildLayerSpecs cfg acConfig.isSome
        topology := topo
        baseSeed := seed
        configureCalled := pyTruthy acConfig }

/-- A small concrete configuration used by concrete instances:
10 vocabulary ids, hidden size 2, one transformer block. -/
def cfgW : LlamaConfig := ⟨10, 2, 1, 0⟩

/-- A concrete configuration with four transformer blocks. -/
def cfg4 : LlamaConfig := ⟨10, 2, 4, 0⟩

/-- Concrete arguments: pipe degree 4, model-parallel degree 2,
world size 8, base seed 10. -/
def argsW : TrainArgs := ⟨4, 2, 8, 10⟩

/-- Concrete arguments with world size 7, which 2 * 2 does not divide. -/
def argsBad : TrainArgs := ⟨2, 2, 7, 0⟩

/-- The module `getModel cfgW argsW none 2` constructs: data-parallel
degree 1 and seed 10 + 2 * 2 = 14 for the interior stage coordinate 2. -/
def rW : GPT2ModelPipe := ⟨buildLayerSpecs cfgW false, ⟨4, 2, 1⟩, 14, false⟩

/-- The module `getModel cfgW argsW none 0` constructs: the boundary stage
coordinate 0 keeps the base seed 10. -/
def r0 : GPT2ModelPipe := ⟨buildLayerSpecs cfgW false, ⟨4, 2, 1⟩, 10, false⟩

/-- The module `getModel cfgW argsW (some []) 2` constructs: the empty
options dict is not `None`, so every transformer spec has checkpointing
enabled, yet the dict is falsy, so `configure` is never called. -/
def rE : GPT2ModelPipe := ⟨buildLayerSpecs cfgW true, ⟨4, 2, 1⟩, 14, false⟩

/-- Python float values arising in the mask-to-bias computation: the
literal `float("-inf")` and finite values, with rationals standing in for
exactly representable floats. -/
inductive PyFloat
  | neginf
  | finite (q : ℚ)
  deriving DecidableEq, Repr

/-- Elementwise `torch.where(mask == True, float("-inf"), 0)` on the data
of a boolean mask tensor (source lines 30 and 41): a `True` entry becomes
`float("-inf")`, a `False` entry becomes `0.0`. -/
def whereNegInfZero (m : List Bool) : List PyFloat :=
  m.map (fun b => if b = true then PyFloat.neginf else PyFloat.finite 0)

/-- Elementwise `.long()`: the PyTorch float-to-int64 cast.  Finite values
truncate toward zero; `float("-inf")` maps to the minimal signed 64-bit
integer `-2^63`, since the integer type has no infinities. -/
def pyFloatToLong : PyFloat → Int
  | PyFloat.neginf => -(2 ^ 63)
  | PyFloat.finite q => Int.tdiv q.num (q.den : Int)

/-- The mask-to-bias conversion
`torch.where(mask == True, float("-inf"), 0).long()` applied to the data
of the boolean mask (source lines 30 and 41). -/
def maskToBias (m : List Bool) : List Int :=
  (whereNegInfZero m).map pyFloatToLong

/-- Promotion of an int64 bias entry back to a float value, which is what
the entry contributes when the integer-valued attention bias is added to
floating-point attention scores inside the decoder layer. -/
def intAsFloat (n : Int) : PyFloat := PyFloat.finite (n : ℚ)

/-- Data buffer of a tensor, tagged by dtype: float, int64 or bool. -/
inductive TData
  | f (xs : List ℚ)
  | i (xs : List Int)
  | b (xs : List Bool)
  deriving DecidableEq, Repr

/-- A tensor: its shape and its flat data buffer. -/
structure Tensor where
  shape : List Nat
  data : TData
  deriving DecidableEq, Repr

/-- A Python value crossing a stage boundary: a tensor or a tuple. -/
inductive Val
  | tensor (t : Tensor)
  | tup (xs : List Val)

/-- Modelled from the spec: the external recompute-on-backward primitive
`deepspeed.checkpointing.checkpoint` applies the callable to its inputs
during the forward pass and returns the forward result; per the source
comment at line 48, a length-1 output tuple is returned as its sole
element rather than as a tuple. -/
def dsCheckpoint (f : Tensor → Tensor → Tensor → List Tensor)
    (h bias p : Tensor) : Val :=
  match f h bias p with
  | [t] => Val.tensor t
  | ts => Val.tup (ts.map Val.tensor)

/-- Forward pass of `ParallelTransformerLayerPipe` (source lines 25-56).
`acAttr` is the object's `activation_checkpointing` attribute: `none` when
the attribute was never written (so the lookup at line 26 raises
`AttributeError`), `some flag` when `__init__` stored `flag` there.  The
external `LlamaDecoderLayer.forward` body - self-attention plus
feed-forward, taking (hidden_states, attention_mask, position_ids) and
returning a tuple of tensors - enters as the parameter `D`; it is a pure
function, which models running under a fixed random state.  Both paths
unpack the 3-tuple, derive the integer attention bias from the boolean
mask, and re-emit `(first output, position_ids, original boolean mask)`;
the plain path indexes `outputs[0]` (IndexError on an empty tuple) while
the checkpointed path returns whatever `dsCheckpoint` hands back. -/
def transformerForward (acAttr : Option Bool)
    (D : Tensor → Tensor → Tensor → List Tensor) (args : Val) :
    Except PyErr Val :=
  match acAttr with
  | none => Except.error PyErr.attributeError
  | some ckpt =>
    match args with
    | Val.tup [Val.tensor h, Val.tensor p, Val.tensor m] =>
      match m.data with
      | TData.b mb =>
        let bias : Tensor := ⟨m.shape, TData.i (maskToBias mb)⟩
        if ckpt then
          Except.ok (Val.tup [dsCheckpoint D h bias p, Val.tensor p, Val.tensor m])
        else
          match D h bias p with
          | [] => Except.error PyErr.indexError
          | o :: _ => Except.ok (Val.tup [Val.tensor o, Val.tensor p, Val.tensor m])
      | _ => Except.error PyErr.typeError
    | _ => Except.error PyErr.valueError

/-- Fresh construction `ParallelTransformerLayerPipe(config, flag)`
(source lines 21-23): `__init__` stores the flag as the instance attribute
`activation_checkpointing`. -/
def freshTransformerAC (activationCheckpointing : Bool) : Option Bool :=
  some activationCheckpointing

/-- The eager re-tagging path `_wrap_decoder_layer` (source lines 59-63):
only `layer.__class__` is reassigned; no attribute is written, so the
wrapped object keeps whatever `activation_checkpointing` attribute it
already had. -/
def wrapDecoderLayerAC (existing : Option Bool) : Option Bool := existing

/-- A materialized HF `LlamaDecoderLayer` instance defines no attribute
named `activation_checkpointing` (modelled from the external library
boundary: the layer holds attention/MLP/norm submodules only, and
`nn.Module` raises `AttributeError` for unknown attributes). -/
def bareDecoderAC : Option Bool := none

/-- Structural recursion worker for `chunks`, with the original length as
fuel. -/
def chunksGo (n : Nat) : Nat → List ℚ → List (List ℚ)
  | _, [] => []
  | 0, _ => []
  | fuel + 1, x :: xs => ((x :: xs).take n) :: chunksGo n fuel ((x :: xs).drop n)

/-- View of a flat float buffer as rows of length `n`, as in
`tensor.view(-1, n)`. -/
def chunks (n : Nat) (xs : List ℚ) : List (List ℚ) :=
  chunksGo n xs.length xs

/-- A materialized `torch.nn.Linear`: feature sizes, the weight matrix
(`outFeatures` rows of length `inFeatures`), and an optional bias
vector. -/
structure LinearModel where
  inFeatures : Nat
  outFeatures : Nat
  weight : List (List ℚ)
  bias : Option (List ℚ)
  deriving DecidableEq, Repr

/-- Materialization of `LayerSpec(LMLayerPipe, in_features, out_features,
bias=flag)`: the engine constructs the linear layer from the spec
arguments; the weight and bias values come from external initialization
and are passed in. -/
def materializeLinear (inF outF : Nat) (biasFlag : Bool)
    (W : List (List ℚ)) (bv : List ℚ) : LinearModel :=
  ⟨inF, outF, W, if biasFlag then some bv else none⟩

/-- Dot product of two rows. -/
def dotQ (a b : List ℚ) : ℚ := (List.zipWith (· * ·) a b).sum

/-- One output row of `torch.nn.functional.linear`: `x Wᵀ + b`, with the
bias term omitted when the layer has none. -/
def linearRow (L : LinearModel) (r : List ℚ) : List ℚ :=
  match L.bias with
  | none => L.weight.map (fun w => dotQ w r)
  | some bv => List.zipWith (fun w c => dotQ w r + c) L.weight bv

/-- `torch.nn.Linear.forward` on a float tensor: the data is viewed as
rows of length `inFeatures`; the result replaces the last shape dimension
with `outFeatures`. -/
def linearForward (L : LinearModel) (shape : List Nat) (xs : List ℚ) : Tensor :=
  ⟨shape.dropLast ++ [L.outFeatures],
   TData.f (((chunks L.inFeatures xs).map (linearRow L)).flatten)⟩

/-- `LMLayerPipe.forward` (source lines 77-81): unpack the 1-tuple, apply
the linear projection, and re-wrap the logits as a 1-tuple. -/
def lmLayerForward (L : LinearModel) (args : Val) : Except PyErr Val :=
  match args with
  | Val.tup [Val.tensor t] =>
    match t.data with
    | TData.f xs => Except.ok (Val.tup [Val.tensor (linearForward L t.shape xs)])
    | _ => Except.error PyErr.typeError
  | _ => Except.error PyErr.valueError

/-- Last dimension of the single tensor inside a successful 1-tuple stage
result. -/
def valLastDim : Except PyErr Val → Option Nat
  | Except.ok (Val.tup [Val.tensor t]) => t.shape.getLast?
  | _ => none

/-- A concrete stand-in for the external decoder-layer body: it returns
its hidden-states input as a 1-tuple. -/
def D0 : Tensor → Tensor → Tensor → List Tensor := fun h _ _ => [h]

/-- A concrete hidden-states tensor of shape (1, 1, 2). -/
def hT : Tensor := ⟨[1, 1, 2], TData.f [1, 2]⟩

/-- A concrete position-ids tensor of shape (1, 2). -/
def pT : Tensor := ⟨[1, 2], TData.i [0, 1]⟩

/-- A concrete boolean mask tensor of shape (1, 2). -/
def mT : Tensor := ⟨[1, 2], TData.b [false, true]⟩

/-- The concrete pipeline 3-tuple `(hT, pT, mT)`. -/
def argsT : Val := Val.tup [Val.tensor hT, Val.tensor pT, Val.tensor mT]

/-- A concrete 11-row weight matrix for the LM head over `cfgW`. -/
def W10 : List (List ℚ) := List.replicate 11 [0, 0]

/-- The LM head materialized from the builder's spec for `cfgW`:
`LayerSpec(LMLayerPipe, 2, 11, bias=False)`. -/
def L10 : LinearModel := materializeLinear 2 11 false W10 []

/-- A concrete 1-tuple input for the LM head, hidden size 2. -/
def input10 : Val := Val.tup [Val.tensor ⟨[1, 1, 2], TData.f [0, 0]⟩]

/-- The default `ignore_index` of `torch.nn.functional.cross_entropy`,
relied on by `loss_fn` (source lines 98-105). -/
def IGNORE_INDEX : Int := -100

/-- Log-sum-exp of one row of logits.  Logits are real-valued here: the
loss is transcendental, so this part of the model is exact real
arithmetic rather than executable rationals; float overflow is outside
its scope. -/
noncomputable def logSumExp (zs : List ℝ) : ℝ :=
  Real.log ((zs.map Real.exp).sum)

/-- Cross-entropy of a single token position: the negative log-softmax of
the logit selected by the label. -/
noncomputable def tokenCE (zs : List ℝ) (y : Nat) : ℝ :=
  logSumExp zs - zs.getD y 0

/-- Modelled from the spec: the external `F.cross_entropy` with its
default mean reduction and default `ignore_index`, on rows of logits and
a flat label vector - the mean, over the positions whose label is not the
ignore sentinel, of the per-token cross-entropy.  When no position
contributes, the 0/0 mean is NaN, represented by `none`; a (finite) real
result is `some`. -/
noncomputable def crossEntropyMean (rows : List (List ℝ)) (labels : List Int) :
    Option ℝ :=
  match (rows.zip labels).filter (fun q => q.2 != IGNORE_INDEX) with
  | [] => none
  | l => some ((l.map (fun q => tokenCE q.1 q.2.toNat)).sum / l.length)

/-- `loss_fn` (source lines 98-105): unpack the 1-tuple of stage outputs
(`logits, = outputs`, a ValueError on any other arity), view the
(batch, seq, vocab) logits as (batch*seq, vocab) rows and the labels as a
flat vector, and apply cross-entropy; all-ignored labels yield NaN, per
the comment at source line 101. -/
noncomputable def loss_fn (outputs : List (List (List (List ℝ))))
    (labels : List (List Int)) : Except PyErr (Option ℝ) :=
  match outputs with
  | [logits] => Except.ok (crossEntropyMean logits.flatten labels.flatten)
  | _ => Except.error PyErr.valueError

/- ===================== Theorems ===================== -/

/-- Helper: the last element of a list ending in an explicit singleton. -/
theorem getLast_app_single {α : Type _} (l : List α) (a : α) :
    (l ++ [a]).getLast? = some a := by
  simp

/-- Helper: every transformer spec in the built list carries exactly the
flag the builder was given. -/
theorem buildLayerSpecs_transformer_flag (cfg : LlamaConfig) (f : Bool)
    (c : LlamaConfig) (b : Bool)
    (h : StageSpec.transformer c b ∈ buildLayerSpecs cfg f) : b = f := by
  rcases List.mem_append.mp h with h1 | h2
  · rcases List.mem_append.mp h1 with ha | hb
    · exact StageSpec.noConfusion (List.mem_singleton.mp ha)
    · have heq := (List.mem_replicate.mp hb).2
      injection heq with hconf hflag
  · rcases List.mem_cons.mp h2 with ha | hb
    · exact StageSpec.noConfusion ha
    · rcases List.mem_singleton.mp hb with h3
      exact StageSpec.noConfusion h3

/-- C1: in `get_model`, a worker whose pipeline coordinate is 0 or
`pipe_degree - 1` keeps the base seed unchanged, while a strictly interior
coordinate gets `base_seed + stage_index * model_parallel_degree`
(source lines 176-178). -/
theorem seed_offset_law (cfg : LlamaConfig) (args : TrainArgs)
    (acConfig : Option ACDict) (coord : Nat) (r : GPT2ModelPipe)
    (hok : getModel cfg args acConfig coord = Except.ok r) :
    ((coord = 0 ∨ coord = args.pipe_parallel_size - 1) → r.baseSeed = args.seed)
    ∧ (0 < coord → coord < args.pipe_parallel_size - 1 →
        r.baseSeed = args.seed + (coord * args.model_parallel_size : Nat)) := by
  unfold getModel at hok
  by_cases h0 : args.pipe_parallel_size * args.model_parallel_size = 0
  · rw [if_pos h0] at hok
    exact Except.noConfusion hok
  by_cases h1 : args.world_size % (args.pipe_parallel_size * args.model_parallel_size) = 0
  · rw [if_neg h0, if_neg (by simpa using h1)] at hok
    cases hok
    constructor
    · rintro (rfl | rfl)
      · simp
      · simp
    · intro hlt hup
      simp [hlt, hup]
  · rw [if_neg h0, if_pos (by simpa using h1)] at hok
    exact Except.noConfusion hok

/-- C1 witness: with pipe degree 4, model-parallel degree 2 and base seed
10, the worker at interior coordinate 2 is assigned seed 14, and the
worker at boundary coordinate 0 keeps seed 10. -/
theorem seed_offset_law_witness :
    rW.baseSeed = argsW.seed + ((2 * argsW.model_parallel_size : Nat) : Int)
    ∧ r0.baseSeed = argsW.seed :=
  ⟨(seed_offset_law cfgW argsW none 2 rW rfl).2 (by decide) (by decide),
   (seed_offset_law cfgW argsW none 0 r0 rfl).1 (Or.inl rfl)⟩

/-- C2 counterexample: for `num_hidden_layers = 4` the builder's list has
length 7, which is not `2 + num_hidden_layers = 6`: the claimed general
formula is off by one. -/
theorem stage_list_length_counterexample :
    (buildLayerSpecs cfg4 false).length = 7
    ∧ (buildLayerSpecs cfg4 false).length ≠ 2 + cfg4.num_hidden_layers := by
  constructor <;> decide

/-- C2 (amended): for every configuration the builder's list has length
`3 + num_hidden_layers` (one embedding, the blocks, one normalization, one
LM head); concretely, for `num_hidden_layers = 4` it is the 7-element list
embedding, four transformer blocks, normalization, LM head, in that
order. -/
theorem stage_list_length (cfg : LlamaConfig) (ckpt : Bool) :
    (buildLayerSpecs cfg ckpt).length = 3 + cfg.num_hidden_layers
    ∧ (cfg.num_hidden_layers = 4 →
        buildLayerSpecs cfg ckpt =
          [StageSpec.embedding (cfg.vocab_size + 1) cfg.hidden_size,
           StageSpec.transformer cfg ckpt, StageSpec.transformer cfg ckpt,
           StageSpec.transformer cfg ckpt, StageSpec.transformer cfg ckpt,
           StageSpec.norm cfg.hidden_size cfg.rms_norm_eps,
           StageSpec.lmHead cfg.hidden_size (cfg.vocab_size + 1) false]) := by
  constructor
  · simp [buildLayerSpecs]
    omega
  · intro h4
    simp [buildLayerSpecs, h4, List.replicate]

/-- C2 witness: the amended law evaluated at the concrete four-block
configuration. -/
theorem stage_list_length_witness :
    (buildLayerSpecs cfg4 true).length = 3 + cfg4.num_hidden_layers
    ∧ buildLayerSpecs cfg4 true =
        [StageSpec.embedding 11 2,
         StageSpec.transformer cfg4 true, StageSpec.transformer cfg4 true,
         StageSpec.transformer cfg4 true, StageSpec.transformer cfg4 true,
         StageSpec.norm 2 0, StageSpec.lmHead 2 11 false] :=
  ⟨(stage_list_length cfg4 true).1, (stage_list_length cfg4 true).2 rfl⟩

/-- C9: when `pipe_parallel_size * model_parallel_size` (both positive)
does not divide `world_size`, `get_model` fails with the assertion error
raised at source line 170, before any topology or stage specification
exists; when it does divide, construction succeeds and the data-parallel
degree is `world_size / (pipe_parallel_size * model_parallel_size)`. -/
theorem topology_divisibility (cfg : LlamaConfig) (args : TrainArgs)
    (acConfig : Option ACDict) (coord : Nat)
    (hpp : 0 < args.pipe_parallel_size) (hmp : 0 < args.model_parallel_size) :
    (¬ (args.pipe_parallel_size * args.model_parallel_size ∣ args.world_size) →
        getModel cfg args acConfig coord = Except.error PyErr.assertionError)
    ∧ (args.pipe_parallel_size * args.model_parallel_size ∣ args.world_size →
        ∃ r, getModel cfg args acConfig coord = Except.ok r
          ∧ r.topology.num_dp =
              args.world_size /
                (args.pipe_parallel_size * args.model_parallel_size)) := by
  have hne : args.pipe_parallel_size * args.model_parallel_size ≠ 0 :=
    Nat.mul_ne_zero hpp.ne' hmp.ne'
  constructor
  · intro hndvd
    have hmod : args.world_size %
        (args.pipe_parallel_size * args.model_parallel_size) ≠ 0 := by
      intro h; exact hndvd (Nat.dvd_of_mod_eq_zero h)
    unfold getModel
    rw [if_neg hne, if_pos hmod]
  · intro hdvd
    have hmod : args.world_size %
        (args.pipe_parallel_size * args.model_parallel_size) = 0 := by
      obtain ⟨k, hk⟩ := hdvd
      rw [hk]
      exact Nat.mul_mod_right _ _
    refine ⟨{ specs := buildLayerSpecs cfg acConfig.isSome
              topology := ⟨args.pipe_parallel_size, args.model_parallel_size,
                args.world_size /
                  (args.pipe_parallel_size * args.model_parallel_size)⟩
              baseSeed := if 0 < coord ∧ coord < args.pipe_parallel_size - 1
                then args.seed + (coord * args.model_parallel_size : Nat)
                else args.seed
              configureCalled := pyTruthy acConfig }, ?_, rfl⟩
    unfold getModel
    rw [if_neg hne, if_neg (by simpa using hmod)]

/-- C9 witness: world size 7 with degrees 2 and 2 fails the divisibility
assert; world size 8 with degrees 4 and 2 succeeds with data-parallel
degree 1. -/
theorem topology_divisibility_witness :
    getModel cfgW argsBad none 0 = Except.error PyErr.assertionError
    ∧ ∃ r, getModel cfgW argsW none 2 = Except.ok r
        ∧ r.topology.num_dp =
            argsW.world_size /
              (argsW.pipe_parallel_size * argsW.model_parallel_size) :=
  ⟨(topology_divisibility cfgW argsBad none 0 (by decide) (by decide)).1
      (by decide),
   (topology_divisibility cfgW argsW none 2 (by decide) (by decide)).2
      (by decide)⟩

/-- C10: in `get_model`, the `deepspeed.checkpointing.configure` call is
made iff the options mapping is truthy (line 147), while each transformer
spec's checkpointing flag is `activation_checkpointing_config is not None`
(line 160); hence an empty dict enables checkpointing on every transformer
stage without ever calling `configure`, and `None` disables both. -/
theorem checkpoint_config_gating (cfg : LlamaConfig) (args : TrainArgs)
    (acConfig : Option ACDict) (coord : Nat) (r : GPT2ModelPipe)
    (hok : getModel cfg args acConfig coord = Except.ok r) :
    (r.configureCalled = pyTruthy acConfig)
    ∧ (∀ c b, StageSpec.transformer c b ∈ r.specs → b = acConfig.isSome)
    ∧ (acConfig = some ([] : ACDict) →
        r.configureCalled = false
        ∧ ∀ c b, StageSpec.transformer c b ∈ r.specs → b = true)
    ∧ (acConfig = none →
        r.configureCalled = false
        ∧ ∀ c b, StageSpec.transformer c b ∈ r.specs → b = false) := by
  unfold getModel at hok
  by_cases h0 : args.pipe_parallel_size * args.model_parallel_size = 0
  · simp [h0] at hok
  by_cases h1 : args.world_size % (args.pipe_parallel_size * args.model_parallel_size) ≠ 0
  · rw [if_neg h0, if_pos h1] at hok; cases hok
  rw [if_neg h0, if_neg (by simpa using h1)] at hok
  cases hok
  refine ⟨rfl, ?_, ?_, ?_⟩
  · intro c b hb
    exact buildLayerSpecs_transformer_flag cfg _ c b hb
  · intro hEmpty
    subst hEmpty
    exact ⟨rfl, fun c b hb => buildLayerSpecs_transformer_flag cfg _ c b hb⟩
  · intro hNone
    subst hNone
    exact ⟨rfl, fun c b hb => buildLayerSpecs_transformer_flag cfg _ c b hb⟩

/-- C10 witness: with the empty options dict, the constructed module
records that `configure` was never called while its transformer spec has
checkpointing enabled. -/
theorem checkpoint_config_gating_witness :
    rE.configureCalled = false
    ∧ ∀ c b, StageSpec.transformer c b ∈ rE.specs → b = true :=
  (checkpoint_config_gating cfgW argsW (some ([] : ACDict)) 2 rE rfl).2.2.1 rfl

/-- C3: for a fixed input 3-tuple and a fixed random state (the same pure
decoder body `D` on both sides), the checkpointed transformer stage and
the plain transformer stage produce identical forward outputs, tuple
structure included.  The hypothesis that `D` returns a 1-tuple reflects
the external `LlamaDecoderLayer.forward` called with default flags, which
the unwrapping convention of the checkpoint primitive (source line 48)
relies on. -/
theorem transformer_ckpt_eq_plain (D : Tensor → Tensor → Tensor → List Tensor)
    (h p m : Tensor) (mb : List Bool) (hm : m.data = TData.b mb)
    (hlen : (D h ⟨m.shape, TData.i (maskToBias mb)⟩ p).length = 1) :
    transformerForward (some true) D
        (Val.tup [Val.tensor h, Val.tensor p, Val.tensor m])
      = transformerForward (some false) D
          (Val.tup [Val.tensor h, Val.tensor p, Val.tensor m]) := by
  obtain ⟨o, ho⟩ : ∃ o, D h ⟨m.shape, TData.i (maskToBias mb)⟩ p = [o] := by
    cases hD : D h ⟨m.shape, TData.i (maskToBias mb)⟩ p with
    | nil => rw [hD] at hlen; simp at hlen
    | cons o os =>
      cases os with
      | nil => exact ⟨o, rfl⟩
      | cons o2 os2 => rw [hD] at hlen; simp at hlen
  simp [transformerForward, dsCheckpoint, hm, ho]

/-- C3 witness: the checkpointed and plain paths agree on the concrete
input `argsT` with the concrete decoder body `D0`. -/
theorem transformer_ckpt_eq_plain_witness :
    mT.data = TData.b [false, true]
    ∧ transformerForward (some true) D0 argsT
        = transformerForward (some false) D0 argsT :=
  ⟨rfl, transformer_ckpt_eq_plain D0 hT pT mT [false, true] rfl rfl⟩

/-- C4 counterexample: after `.long()`, the bias entry derived from a
`True` mask entry is the finite integer `-2^63`, not negative infinity;
the value it contributes to a floating-point attention score is the
finite `PyFloat.finite (-2^63)`, so the claim that the converted bias is
still negative infinity fails on the one-entry mask `[true]`. -/
theorem mask_bias_neginf_counterexample :
    maskToBias [true] = [-(2 ^ 63)]
    ∧ intAsFloat ((maskToBias [true]).getD 0 0) ≠ PyFloat.neginf := by
  constructor
  · rfl
  · decide

/-- C4 (amended): the mask-to-bias conversion maps every `True` entry to
`-2^63` (the minimal signed 64-bit integer, a finite value: the result of
casting `float("-inf")` to int64) and every `False` entry to exactly
zero, so masked positions contribute the huge finite negative bias
`-2^63` and unmasked positions contribute exactly zero. -/
theorem mask_bias_values (m : List Bool) :
    maskToBias m = m.map (fun b => if b then (-(2 ^ 63) : Int) else 0) := by
  induction m with
  | nil => rfl
  | cons b bs ih =>
    cases b
    · show pyFloatToLong (PyFloat.finite 0) :: maskToBias bs = 0 :: _
      rw [ih]
      congr 1
    · show pyFloatToLong PyFloat.neginf :: maskToBias bs = -(2 ^ 63) :: _
      rw [ih]
      congr 1

/-- C5: the plain transformer stage maps the 3-tuple
`(hidden_states, position_ids, boolean_mask)` to a 3-tuple whose second
element is `position_ids` unchanged and whose third element is the
original boolean mask (not the derived bias); the first element is the
decoder output, whose shape equals the input hidden-states shape by the
external decoder contract (hypothesis `hshape`). -/
theorem transformer_frame (D : Tensor → Tensor → Tensor → List Tensor)
    (h p m o : Tensor) (mb : List Bool)
    (hm : m.data = TData.b mb)
    (hD : D h ⟨m.shape, TData.i (maskToBias mb)⟩ p = [o])
    (hshape : o.shape = h.shape) :
    transformerForward (some false) D
        (Val.tup [Val.tensor h, Val.tensor p, Val.tensor m])
      = Except.ok (Val.tup [Val.tensor o, Val.tensor p, Val.tensor m])
    ∧ o.shape = h.shape := by
  refine ⟨?_, hshape⟩
  simp [transformerForward, hm, hD]

/-- C5 witness: the frame law at the concrete input `argsT` with the
concrete decoder body `D0`, whose output tensor is the input itself. -/
theorem transformer_frame_witness :
    transformerForward (some false) D0 argsT
      = Except.ok (Val.tup [Val.tensor hT, Val.tensor pT, Val.tensor mT])
    ∧ hT.shape = hT.shape :=
  transformer_frame D0 hT pT mT hT [false, true] rfl rfl rfl

/-- C6 (code evaluated at the failing input): a freshly constructed
transformer stage succeeds on the valid 3-tuple `argsT`, but the stage
obtained by re-tagging a materialized `LlamaDecoderLayer` through
`_wrap_decoder_layer` raises `AttributeError` on the very same input,
because re-tagging skips `__init__` and never writes the
`activation_checkpointing` attribute that `forward` reads first. -/
theorem wrap_decoder_attribute_bug :
    transformerForward (freshTransformerAC false) D0 argsT
      = Except.ok (Val.tup [Val.tensor hT, Val.tensor pT, Val.tensor mT])
    ∧ transformerForward (wrapDecoderLayerAC bareDecoderAC) D0 argsT
      = Except.error PyErr.attributeError :=
  ⟨rfl, rfl⟩

/-- C7 counterexample: for the configuration `cfgW` with vocabulary size
10, the builder's LM-head spec is `LayerSpec(LMLayerPipe, 2, 11,
bias=False)`, and the materialized stage emits logits whose last
dimension is 11, not the configured vocabulary size 10. -/
theorem lm_head_lastdim_counterexample :
    (buildLayerSpecs cfgW false).getLast? = some (StageSpec.lmHead 2 11 false)
    ∧ valLastDim (lmLayerForward L10 input10) = some 11
    ∧ (11 : Nat) ≠ cfgW.vocab_size := by
  refine ⟨?_, rfl, by decide⟩
  rfl

/-- C7 (amended): the output-projection stage is built with no bias term,
and on every 1-tuple float input it emits a 1-tuple whose tensor's last
dimension is `vocab_size + 1` - one slot beyond the configured vocabulary
size, matching the embedding table's extra sentinel slot. -/
theorem lm_head_contract (cfg : LlamaConfig) (ckpt : Bool)
    (W : List (List ℚ)) (bv : List ℚ) (shape : List Nat) (xs : List ℚ) :
    (buildLayerSpecs cfg ckpt).getLast?
      = some (StageSpec.lmHead cfg.hidden_size (cfg.vocab_size + 1) false)
    ∧ (materializeLinear cfg.hidden_size (cfg.vocab_size + 1) false W bv).bias
      = none
    ∧ ∃ t, lmLayerForward
          (materializeLinear cfg.hidden_size (cfg.vocab_size + 1) false W bv)
          (Val.tup [Val.tensor ⟨shape, TData.f xs⟩])
        = Except.ok (Val.tup [Val.tensor t])
      ∧ t.shape.getLast? = some (cfg.vocab_size + 1) := by
  refine ⟨?_, rfl, ⟨linearForward _ shape xs, rfl, ?_⟩⟩
  · have hsplit : buildLayerSpecs cfg ckpt
        = ([StageSpec.embedding (cfg.vocab_size + 1) cfg.hidden_size]
            ++ List.replicate cfg.num_hidden_layers
                (StageSpec.transformer cfg ckpt)
            ++ [StageSpec.norm cfg.hidden_size cfg.rms_norm_eps])
          ++ [StageSpec.lmHead cfg.hidden_size (cfg.vocab_size + 1) false] := by
      simp [buildLayerSpecs]
    rw [hsplit, getLast_app_single]
  · show (shape.dropLast ++ [_]).getLast? = _
    rw [getLast_app_single]
    rfl

/-- Helper: the per-token cross-entropy is non-negative whenever the label
indexes into the row, since the log-sum-exp dominates every logit of the
row. -/
theorem tokenCE_nonneg (zs : List ℝ) (y : Nat) (hy : y < zs.length) :
    0 ≤ tokenCE zs y := by
  have hget : zs.getD y 0 = zs[y] := List.getD_eq_getElem zs 0 hy
  have hmem : Real.exp zs[y] ∈ zs.map Real.exp :=
    List.mem_map_of_mem Real.exp (List.getElem_mem hy)
  have hpos : ∀ x ∈ zs.map Real.exp, 0 ≤ x := by
    intro x hx
    obtain ⟨z, _, rfl⟩ := List.mem_map.mp hx
    exact (Real.exp_pos z).le
  have hsum : Real.exp zs[y] ≤ (zs.map Real.exp).sum :=
    List.single_le_sum hpos _ hmem
  have hspos : 0 < (zs.map Real.exp).sum :=
    lt_of_lt_of_le (Real.exp_pos _) hsum
  have hlog : zs[y] ≤ Real.log ((zs.map Real.exp).sum) :=
    (Real.le_log_iff_exp_le hspos).mpr hsum
  unfold tokenCE logSumExp
  rw [hget]
  linarith

/-- C8: when flattened logits rows and labels agree in number and every
non-ignored label is a valid vocabulary index, `loss_fn` returns a finite
non-negative scalar as soon as at least one label position is not the
ignore sentinel; when every position is the sentinel, it returns the
detectable NaN marker rather than a substituted default value. -/
theorem loss_fn_contract (logits : List (List (List ℝ)))
    (labels : List (List Int))
    (hlen : logits.flatten.length = labels.flatten.length)
    (hvalid : ∀ q ∈ logits.flatten.zip labels.flatten,
        q.2 ≠ IGNORE_INDEX → 0 ≤ q.2 ∧ q.2.toNat < q.1.length) :
    ((∃ y ∈ labels.flatten, y ≠ IGNORE_INDEX) →
        ∃ x, loss_fn [logits] labels = Except.ok (some x) ∧ 0 ≤ x)
    ∧ ((∀ y ∈ labels.flatten, y = IGNORE_INDEX) →
        loss_fn [logits] labels = Except.ok none) := by
  constructor
  · intro hex
    obtain ⟨y, hy, hyne⟩ := hex
    obtain ⟨i, hi, hiy⟩ := List.mem_iff_getElem.mp hy
    have hi2 : i < logits.flatten.length := by rw [hlen]; exact hi
    have hiz : i < (logits.flatten.zip labels.flatten).length := by
      rw [List.length_zip]; exact lt_min hi2 hi
    have hpmem : (logits.flatten.zip labels.flatten)[i] ∈
        logits.flatten.zip labels.flatten := List.getElem_mem hiz
    have hpsnd : ((logits.flatten.zip labels.flatten)[i]).2 = y := by
      rw [List.getElem_zip]
      exact hiy
    have hpfilter : (logits.flatten.zip labels.flatten)[i] ∈
        (logits.flatten.zip labels.flatten).filter
          (fun q => q.2 != IGNORE_INDEX) := by
      refine List.mem_filter.mpr ⟨hpmem, ?_⟩
      show (((logits.flatten.zip labels.flatten)[i]).2 != IGNORE_INDEX) = true
      rw [hpsnd]
      exact bne_iff_ne.mpr hyne
    rcases hc : (logits.flatten.zip labels.flatten).filter
        (fun q => q.2 != IGNORE_INDEX) with _ | ⟨a, l⟩
    · rw [hc] at hpfilter
      exact absurd hpfilter (List.not_mem_nil _)
    · have hcem : crossEntropyMean logits.flatten labels.flatten
          = some ((((a :: l).map (fun q => tokenCE q.1 q.2.toNat)).sum)
              / (a :: l).length) := by
        unfold crossEntropyMean
        rw [hc]
      refine ⟨(((a :: l).map (fun q => tokenCE q.1 q.2.toNat)).sum)
          / (((a :: l).length : Nat) : ℝ), ?_, ?_⟩
      · show Except.ok (crossEntropyMean logits.flatten labels.flatten) = _
        rw [hcem]
      · apply div_nonneg
        · apply List.sum_nonneg
          intro x hx
          obtain ⟨q, hq, rfl⟩ := List.mem_map.mp hx
          have hq2 : q ∈ (logits.flatten.zip labels.flatten).filter
              (fun q => q.2 != IGNORE_INDEX) := by rw [hc]; exact hq
          have hqz : q ∈ logits.flatten.zip labels.flatten :=
            List.mem_of_mem_filter hq2
          have hqne : q.2 ≠ IGNORE_INDEX :=
            bne_iff_ne.mp ((List.mem_filter.mp hq2).2)
          obtain ⟨hge, hlt⟩ := hvalid q hqz hqne
          exact tokenCE_nonneg q.1 q.2.toNat hlt
        · exact Nat.cast_nonneg _
  · intro hall
    have hfil : (logits.flatten.zip labels.flatten).filter
        (fun q => q.2 != IGNORE_INDEX) = [] := by
      rw [List.filter_eq_nil_iff]
      rintro ⟨q1, q2⟩ hq
      have h2 : q2 ∈ labels.flatten := (List.of_mem_zip hq).2
      have hq2 := hall q2 h2
      simp [hq2]
    show Except.ok (crossEntropyMean logits.flatten labels.flatten)
      = Except.ok none
    rw [show crossEntropyMean logits.flatten labels.flatten = none from by
      unfold crossEntropyMean
      rw [hfil]]

/-- C8 witness: one batch of one position over a two-word vocabulary; the
label 0 yields a finite non-negative loss, and the all-ignored label list
yields the NaN marker. -/
theorem loss_fn_contract_witness :
    (∃ x, loss_fn [[[[(0 : ℝ), 0]]]] [[0]] = Except.ok (some x) ∧ 0 ≤ x)
    ∧ loss_fn [[[[(0 : ℝ), 0]]]] [[-100]] = Except.ok none :=
  ⟨(loss_fn_contract [[[(0 : ℝ), 0]]] [[0]] (by decide) (by decide)).1
      (by decide),
   (loss_fn_contract [[[(0 : ℝ), 0]]] [[-100]] (by decide) (by decide)).2
      (by decide)⟩
